import Mathlib

/-!
Verification of the Interface layer of the ROS bridging component
(`framework/Administration/src/ROSUtil/_Interface.py`).

The Python module is embedded shallowly:

* exceptions become an explicit error type threaded through `Except`;
* object attribute assignment under a `__slots__` declaration becomes an
  explicit `setattr` that fails with `AttributeError` when the attribute
  name is not listed in the slots (new-style classes with `__slots__`
  have no instance dictionary);
* the mutable task registry and the interface record become values that
  are passed and returned explicitly;
* the wire length field (`STRUCT_I` / `LEN_I` from `ContentDefinition`,
  which is not part of the sources) is modelled from the spec as a
  4-byte length field.
-/

/-- Errors that the embedded code can raise.  `internalError` and
`serializationError` are the two propagated failure kinds of the module;
`structError` models `struct.error`; `attributeError` and `typeError`
model the corresponding Python built-in exceptions. -/
inductive PyError where
  | internalError (msg : String)
  | serializationError (msg : String)
  | structError
  | attributeError (name : String)
  | typeError (msg : String)
deriving DecidableEq, Repr

/-- Python values stored in object attributes: `None`, booleans, strings,
`threading.Event` objects (represented by their flag), and an opaque
reference to the owning `ServiceInterface`. -/
inductive PyVal where
  | pyNone
  | pyBool (b : Bool)
  | pyStr (s : String)
  | pyEvent (isSet : Bool)
  | srvRef
deriving DecidableEq, Repr

/-- Python truthiness of the stored values. -/
def PyVal.truthy : PyVal → Bool
  | .pyNone => false
  | .pyBool b => b
  | .pyStr s => !(s = "")
  | .pyEvent _ => true
  | .srvRef => true

/-- An attribute map of a Python object (association list, newest binding
replaces the old one in place). -/
def AttrMap := List (String × PyVal)
deriving DecidableEq, Repr

/-- Update or insert a binding in an association list. -/
def assocSet {α : Type} : List (String × α) → String → α → List (String × α)
  | [], n, v => [(n, v)]
  | (k, w) :: rest, n, v =>
      if k = n then (n, v) :: rest else (k, w) :: assocSet rest n v

/-- Attribute read: `obj.name`, raising `AttributeError` when absent. -/
def getattr (obj : AttrMap) (name : String) : Except PyError PyVal :=
  match List.lookup name obj with
  | some v => .ok v
  | none => .error (.attributeError name)

/-- Attribute assignment `obj.name = v` on an instance of a class with a
`__slots__` declaration and no `__dict__`: the assignment succeeds only
when `name` is one of the declared slots, otherwise Python raises
`AttributeError`. -/
def setattr (slots : List String) (obj : AttrMap) (name : String) (v : PyVal) :
    Except PyError AttrMap :=
  if name ∈ slots then .ok (assocSet obj name v)
  else .error (.attributeError name)

/-- Managers are opaque external collaborators; only their identity
matters to the interface layer.  A `Manager` object is always truthy. -/
abbrev Manager := Nat

/-- The state of an `InterfaceBase` instance: `interfaceName` is the ROS
name as a byte string, `_manager` is `None` until a manager is
registered, `ready` starts out `False` (`InterfaceBase.__init__`). -/
structure InterfaceBase where
  interfaceName : List Nat
  manager : Option Manager
  ready : Bool
deriving DecidableEq, Repr

/-- Model of `InterfaceBase.registerManager`: `if self._manager:` raise
`InternalError`, else bind.  The stored value is either `None` (falsy) or
a `Manager` object (truthy), so the truthiness test is `isSome`.  The
first component of the result is the post state of the object, the
second the raised exception, if any; raising leaves the object
unchanged. -/
def InterfaceBase.registerManager (self : InterfaceBase) (m : Manager) :
    InterfaceBase × Option PyError :=
  if self.manager.isSome then
    (self, some (.internalError "There is already a manager registered."))
  else
    ({ self with manager := some m }, none)

/-- Default `InterfaceBase._send` hook: raises `InternalError`. -/
def InterfaceBase.defaultSendHook (_msg : String) : Except PyError String :=
  .error (.internalError "Interface does not support sending of a message.")

/-- Default `InterfaceBase._receive` hook: raises `InternalError`. -/
def InterfaceBase.defaultReceiveHook (_taskID : String) : Except PyError String :=
  .error (.internalError "Interface is not ready to receive a message.")

/-- Model of `InterfaceBase.send`: `if self.ready:` raise `InternalError`, else
dispatch to the subclass hook `_send` (the hook is passed explicitly;
subclasses override it, the default raises). -/
def InterfaceBase.send (self : InterfaceBase)
    (sendHook : String → Except PyError String) (msg : String) :
    Except PyError String :=
  if self.ready then
    .error (.internalError "Interface is not ready to send a message.")
  else
    sendHook msg

/-- Model of `InterfaceBase.receive`: `if self.ready:` raise
`InternalError`, else dispatch to the subclass hook `_receive`. -/
def InterfaceBase.receive (self : InterfaceBase)
    (receiveHook : String → Except PyError String) (taskID : String) :
    Except PyError String :=
  if self.ready then
    .error (.internalError "Interface is not ready to receive a message.")
  else
    receiveHook taskID

/-- A ready interface with a bound manager, as `start()` would leave it. -/
def readyIface : InterfaceBase :=
  { interfaceName := [], manager := some 0, ready := true }

/-- A freshly constructed interface with a bound manager that has not
been started. -/
def notReadyIface : InterfaceBase :=
  { interfaceName := [], manager := some 0, ready := false }

/-- Claim C1: the code inverts the documented readiness guard.  With
`ready = True`, `send`/`receive` raise InternalError (despite the claim
that a ready interface dispatches to the hook and succeeds); with
`ready = False`, they dispatch to the subclass hook and return its
result (despite the claim that a not-ready interface raises).  This
contradicts the raised message text itself, which says the interface is
not ready precisely when `self.ready` is true. -/
theorem readiness_guard_inverted :
    InterfaceBase.send readyIface (fun m => .ok m) "m"
      = .error (.internalError "Interface is not ready to send a message.")
    ∧ InterfaceBase.receive readyIface (fun t => .ok t) "t"
      = .error (.internalError "Interface is not ready to receive a message.")
    ∧ InterfaceBase.send notReadyIface (fun m => .ok m) "m" = .ok "m"
    ∧ InterfaceBase.receive notReadyIface (fun t => .ok t) "t" = .ok "t" :=
  ⟨rfl, rfl, rfl, rfl⟩

/-- Claim C8: the first `registerManager` call on an unbound interface
binds the manager and raises nothing; every call on an interface whose
manager is bound raises InternalError and leaves the whole state, in
particular the bound manager, unchanged. -/
theorem registerManager_binds_once :
    (∀ (i : InterfaceBase) (m : Manager), i.manager = none →
      (i.registerManager m).2 = none ∧ (i.registerManager m).1.manager = some m)
    ∧ (∀ (j : InterfaceBase) (m' : Manager), j.manager.isSome →
      (j.registerManager m').2
          = some (.internalError "There is already a manager registered.")
        ∧ (j.registerManager m').1 = j) := by
  constructor
  · intro i m h
    simp [InterfaceBase.registerManager, h]
  · intro j m' h
    simp [InterfaceBase.registerManager, h]

/-- Witness for C8 at a concrete interface: binding manager 1 to a fresh
interface succeeds, rebinding manager 2 afterwards raises and keeps
manager 1 bound. -/
theorem registerManager_binds_once_witness :
    (({ interfaceName := [], manager := none, ready := false } :
        InterfaceBase).registerManager 1).2 = none
    ∧ (({ interfaceName := [], manager := none, ready := false } :
        InterfaceBase).registerManager 1).1.manager = some 1
    ∧ ((({ interfaceName := [], manager := none, ready := false } :
        InterfaceBase).registerManager 1).1.registerManager 2).2
        = some (.internalError "There is already a manager registered.")
    ∧ ((({ interfaceName := [], manager := none, ready := false } :
        InterfaceBase).registerManager 1).1.registerManager 2).1.manager
        = some 1 := by
  refine ⟨(registerManager_binds_once.1 _ 1 rfl).1,
          (registerManager_binds_once.1 _ 1 rfl).2, ?_, ?_⟩
  · exact (registerManager_binds_once.2 _ 2 (by decide)).1
  · rw [(registerManager_binds_once.2
      (({ interfaceName := [], manager := none, ready := false } :
        InterfaceBase).registerManager 1).1 2 (by decide)).2]
    exact (registerManager_binds_once.1 _ 1 rfl).2

/-! ### Wire descriptor (de)serialization -/

/-- Length of the wire length field in bytes (`LEN_I` from
`ContentDefinition`). -/
def LEN_I : Nat := 4

/-- Modelled from the spec: `STRUCT_I` comes from `ContentDefinition`,
which is not among the sources; the spec fixes the wire format as a
4-byte length field followed by that many UTF-8 bytes.  `structIUnpack`
models `STRUCT_I.unpack` applied to a slice: it succeeds on exactly 4
bytes (little-endian unsigned) and raises `struct.error` otherwise. -/
def structIUnpack : List Nat → Except PyError Nat
  | [b0, b1, b2, b3] => .ok (b0 + 256 * b1 + 65536 * b2 + 16777216 * b3)
  | _ => .error .structError

/-- Modelled from the spec: the 4-byte length field encoder matching
`structIUnpack` (`STRUCT_I.pack`). -/
def packI (n : Nat) : List Nat :=
  [n % 256, n / 256 % 256, n / 65536 % 256, n / 16777216 % 256]

/-- Python slicing `data[start:stop]` on a byte string: out-of-range
indices are clamped, a short buffer yields a short slice without any
error being raised. -/
def pySlice (data : List Nat) (start stop : Nat) : List Nat :=
  (data.drop start).take (stop - start)

/-- Byte string of an ASCII name (UTF-8 coincides with the code points
for the names used here). -/
def asciiBytes (s : String) : List Nat :=
  s.toList.map Char.toNat

/-- Model of `InterfaceBase.deserialize`: unpack the 4-byte length field from
`data[0:LEN_I]` (a `struct.error` is re-raised as SerializationError,
the formatted exception text is elided), slice the name as
`data[LEN_I:LEN_I+length]`, and return `cls(name)`, a fresh instance
whose constructor sets `_manager = None` and `ready = False`. -/
def InterfaceBase.deserialize (data : List Nat) : Except PyError InterfaceBase :=
  match structIUnpack (pySlice data 0 LEN_I) with
  | .error _ => .error (.serializationError "Could not deserialize Interface")
  | .ok length =>
      .ok { interfaceName := pySlice data LEN_I (LEN_I + length),
            manager := none, ready := false }

/-- Model of `ServiceInterface.deserialize`: parses two length-prefixed fields.
After the second field is parsed, the source executes
`cls = data[start:end]`, rebinding the local name `cls` (which held the
class object) to the parsed byte string, and then `return cls(cls, name)`
calls that byte string; a `str` object is not callable, so every
successful parse ends in `TypeError` and no `ServiceInterface` is ever
produced.  The result type records the pair (service type, name) a
successful construction would have carried; no `.ok` branch exists. -/
def ServiceInterface.deserialize (data : List Nat) :
    Except PyError (List Nat × List Nat) :=
  match structIUnpack (pySlice data 0 LEN_I) with
  | .error _ => .error (.serializationError "Could not deserialize Interface")
  | .ok len1 =>
      let name := pySlice data LEN_I (LEN_I + len1)
      match structIUnpack (pySlice data (LEN_I + len1) (LEN_I + len1 + LEN_I)) with
      | .error _ => .error (.serializationError "Could not deserialize Interface")
      | .ok len2 =>
          let clsBytes :=
            pySlice data (LEN_I + len1 + LEN_I) (LEN_I + len1 + LEN_I + len2)
          -- return cls(cls, name) with cls rebound to clsBytes: not callable
          match clsBytes, name with
          | _, _ => .error (.typeError "str object is not callable")

/-- Claim C3: the round trip through `InterfaceBase.deserialize` holds
for the name "camera/image" (first half of the claim, spec-modelled
4-byte length field), but `ServiceInterface.deserialize` on the
well-formed service descriptor for ("arm/grasp", "pkg/GraspSrv") raises
`TypeError` instead of producing a `ServiceInterface`, because the local
variable `cls` is rebound to the parsed type bytes and then called. -/
theorem descriptor_roundtrip_service_bug :
    InterfaceBase.deserialize (packI 12 ++ asciiBytes "camera/image")
      = .ok { interfaceName := asciiBytes "camera/image",
              manager := none, ready := false }
    ∧ ServiceInterface.deserialize
        (packI 9 ++ asciiBytes "arm/grasp" ++ packI 12 ++ asciiBytes "pkg/GraspSrv")
      = .error (.typeError "str object is not callable") :=
  ⟨rfl, rfl⟩

/-- Claim C10 counterexample: the buffer `packI 5 ++ "ab"` is malformed
in the sense of the claim (the length field announces 5 bytes, only 2
follow), yet `InterfaceBase.deserialize` does not raise
SerializationError: Python slicing silently truncates, and an Interface
named "ab" is returned. -/
theorem deserialize_truncated_name_no_error :
    InterfaceBase.deserialize (packI 5 ++ asciiBytes "ab")
      = .ok { interfaceName := asciiBytes "ab", manager := none, ready := false } :=
  rfl

/-- Claim C10 as amended: `InterfaceBase.deserialize` raises
SerializationError exactly when the buffer is shorter than the 4-byte
length field itself; whenever the length field is present the call
returns an Interface, silently truncating the name when fewer than
`length` bytes remain. -/
theorem deserialize_error_iff_buffer_short (data : List Nat) :
    InterfaceBase.deserialize data
        = .error (.serializationError "Could not deserialize Interface")
      ↔ data.length < LEN_I := by
  match data with
  | [] => simp [InterfaceBase.deserialize, pySlice, structIUnpack, LEN_I]
  | [a] => simp [InterfaceBase.deserialize, pySlice, structIUnpack, LEN_I]
  | [a, b] => simp [InterfaceBase.deserialize, pySlice, structIUnpack, LEN_I]
  | [a, b, c] => simp [InterfaceBase.deserialize, pySlice, structIUnpack, LEN_I]
  | a :: b :: c :: d :: rest =>
      simp [InterfaceBase.deserialize, pySlice, structIUnpack, LEN_I]

/-! ### ServiceInterface and ServiceTask -/

/-- The `__slots__` declaration of `ServiceInterface.ServiceTask`.  Note
that neither `_hasID` nor `_signalCompletion` nor `_signalCompleted` is
listed. -/
def ServiceTask.slots : List String :=
  ["_completed", "_error", "_srv", "_msg", "_id"]

/-- Model of `ServiceTask.__init__(self, srv, msg)`: the constructor
assigns, in source order, `_id = None`, `_srv = srv`, `_msg = msg`,
`_completed = False`, `_error = False`, `_hasID = Event()` and
`_signalCompletion = False` on an instance whose class declares
`__slots__`, so each assignment goes through the slots check. -/
def ServiceTask.init (msg : String) : Except PyError AttrMap := do
  let o : AttrMap := []
  let o ← setattr ServiceTask.slots o "_id" .pyNone
  let o ← setattr ServiceTask.slots o "_srv" .srvRef
  let o ← setattr ServiceTask.slots o "_msg" (.pyStr msg)
  let o ← setattr ServiceTask.slots o "_completed" (.pyBool false)
  let o ← setattr ServiceTask.slots o "_error" (.pyBool false)
  let o ← setattr ServiceTask.slots o "_hasID" (.pyEvent false)
  let o ← setattr ServiceTask.slots o "_signalCompletion" (.pyBool false)
  pure o

/-- Model of `ServiceTask.setID`: reads the `_hasID` event, raises
`InternalError` when it is already set, otherwise assigns `_id` (a slot)
and sets the event in place (`self._hasID.set()` mutates the event
object and is not an attribute assignment, hence no slots check). -/
def ServiceTask.setID (obj : AttrMap) (taskID : String) : Except PyError AttrMap := do
  match ← getattr obj "_hasID" with
  | .pyEvent b =>
      if b then .error (.internalError "Task already has an ID.")
      else do
        let obj ← setattr ServiceTask.slots obj "_id" (.pyStr taskID)
        pure (assocSet obj "_hasID" (.pyEvent true))
  | _ => .error (.typeError "Event expected")

/-- Model of `ServiceTask.getResult`: the first statement is
`self._signalCompleted = True`, an attribute assignment whose name is
not in `__slots__`; the completed/error/pending branches follow.  On
success the result is the possibly updated object together with the
returned value (`some` response or `none` for a pending task). -/
def ServiceTask.getResult (obj : AttrMap) :
    Except PyError (AttrMap × Option String) := do
  let obj ← setattr ServiceTask.slots obj "_signalCompleted" (.pyBool true)
  let c ← getattr obj "_completed"
  if c.truthy then
    match ← getattr obj "_msg" with
    | .pyStr s => pure (obj, some s)
    | _ => .error (.typeError "str expected")
  else
    let e ← getattr obj "_error"
    if e.truthy then
      match ← getattr obj "_msg" with
      | .pyStr s => .error (.internalError s)
      | _ => .error (.typeError "str expected")
    else
      pure (obj, none)

/-- Model of the token allocation loop of `ServiceInterface._send`: the
candidate stream `gen` stands for `generateID()`, `fuel` bounds the
number of loop iterations in the model; a candidate already present in
the registry is retried, a fresh one is inserted under the registry
lock (atomic check-then-insert). -/
def ServiceInterface.allocUID (gen : Nat → String) (task : AttrMap) :
    Nat → List (String × AttrMap) → Option (String × List (String × AttrMap))
  | 0, _ => none
  | n + 1, tasks =>
      let uid := gen n
      if (List.lookup uid tasks).isNone then some (uid, (uid, task) :: tasks)
      else ServiceInterface.allocUID gen task n tasks

/-- Model of `ServiceInterface._send`: construct the `ServiceTask`
(which goes through the slots check), hand `task.run` to the manager
(`runTaskInSeparateThread`, which happens after the construction and is
therefore never reached when the constructor raises), allocate a unique
token, bind it with `task.setID(uid)` (the registry aliases the same
object, so the registry entry is updated too) and return the token
together with the new registry.  `none` stands for an allocation loop
that exceeds the modelling fuel. -/
def ServiceInterface._send (gen : Nat → String) (fuel : Nat)
    (tasks : List (String × AttrMap)) (msg : String) :
    Except PyError (Option (String × List (String × AttrMap))) := do
  let task ← ServiceTask.init msg
  match ServiceInterface.allocUID gen task fuel tasks with
  | none => pure none
  | some (uid, tasks1) =>
      match ServiceTask.setID task uid with
      | .error e => .error e
      | .ok task1 => pure (some (uid, assocSet tasks1 uid task1))

/-- Model of `ServiceInterface._receive`: look up the task under the
registry lock; the `KeyError` of a failed lookup is translated into
`InternalError` (and only `KeyError` is caught, any exception raised by
`getResult` propagates); a falsy result (`None`, and trivially the
empty string) is replaced by the empty string. -/
def ServiceInterface._receive (tasks : List (String × AttrMap))
    (taskID : String) : Except PyError String :=
  match List.lookup taskID tasks with
  | none => .error (.internalError "Invalid taskID used.")
  | some task =>
      match ServiceTask.getResult task with
      | .error e => .error e
      | .ok (_, r) =>
          match r with
          | none => .ok ""
          | some s => .ok s

/-- Sequential driver folding `ServiceInterface._send` over a list of
request payloads: a raised exception propagates to the caller and
leaves the registry unchanged, after which the next call proceeds on
the same registry. -/
def ServiceInterface.sendMany (gen : Nat → String) (fuel : Nat)
    (tasks : List (String × AttrMap)) : List String → List (String × AttrMap)
  | [] => tasks
  | m :: ms =>
      match ServiceInterface._send gen fuel tasks m with
      | .ok (some (_, tasks1)) => ServiceInterface.sendMany gen fuel tasks1 ms
      | _ => ServiceInterface.sendMany gen fuel tasks ms

/-- Shared lemma: every `ServiceInterface._send` call fails with
`AttributeError` on `_hasID`, raised by the very first constructor
statement that assigns a name missing from `__slots__`; the registry
and the token allocation code are never reached. -/
theorem send_raises_attributeError (gen : Nat → String) (fuel : Nat)
    (tasks : List (String × AttrMap)) (msg : String) :
    ServiceInterface._send gen fuel tasks msg
      = .error (.attributeError "_hasID") := rfl

/-- The slot attributes of an in-flight task that is neither completed
nor errored, as the intended constructor would have left them. -/
def pendingTask (msg : String) : AttrMap :=
  [("_id", .pyNone), ("_srv", .srvRef), ("_msg", .pyStr msg),
   ("_completed", .pyBool false), ("_error", .pyBool false)]

/-- The slot attributes of a task whose `run` body completed
successfully and stored the response payload in `_msg`. -/
def completedTask (response : String) : AttrMap :=
  [("_id", .pyStr "u"), ("_srv", .srvRef), ("_msg", .pyStr response),
   ("_completed", .pyBool true), ("_error", .pyBool false)]

/-- Claim C2: `_hasID` and `_signalCompletion` are missing from the
`__slots__` declaration, so `ServiceTask.__init__` always raises
`AttributeError` (at the `_hasID` assignment, the first missing name),
and consequently `ServiceInterface._send` raises `AttributeError` for
every payload before dispatching the task or returning a correlation
token. -/
theorem serviceTask_construction_always_fails :
    ServiceTask.slots.contains "_hasID" = false
    ∧ ServiceTask.slots.contains "_signalCompletion" = false
    ∧ (∀ msg, ServiceTask.init msg = .error (.attributeError "_hasID"))
    ∧ (∀ (gen : Nat → String) (fuel : Nat)
        (tasks : List (String × AttrMap)) (msg : String),
        ServiceInterface._send gen fuel tasks msg
          = .error (.attributeError "_hasID")) :=
  ⟨rfl, rfl, fun _ => rfl, fun gen fuel tasks msg =>
    send_raises_attributeError gen fuel tasks msg⟩

/-- Claim C4: contrary to the claim, a sequence of `_send` calls leaves
the task registry exactly as it was — in particular a registry that
starts empty stays empty, and after `N ≥ 1` calls it does not contain
`N` distinct tokens — because every call raises `AttributeError` in the
`ServiceTask` constructor before the token allocation loop runs. -/
theorem registry_gains_no_tokens (gen : Nat → String) (fuel : Nat)
    (tasks : List (String × AttrMap)) (msgs : List String) :
    ServiceInterface.sendMany gen fuel tasks msgs = tasks := by
  induction msgs with
  | nil => rfl
  | cons m ms ih =>
      simp only [ServiceInterface.sendMany,
        send_raises_attributeError gen fuel tasks m]
      exact ih

/-- Claim C5: for every registry state and every `taskID` that is not a
key of the registry, `ServiceInterface._receive` raises `InternalError`
(the `KeyError` of the lookup is caught and translated). -/
theorem receive_unknown_token_internalError
    (tasks : List (String × AttrMap)) (taskID : String)
    (h : List.lookup taskID tasks = none) :
    ServiceInterface._receive tasks taskID
      = .error (.internalError "Invalid taskID used.") := by
  unfold ServiceInterface._receive
  rw [h]

/-- Witness for C5: receiving the token "x" on an empty registry raises
`InternalError`. -/
theorem receive_unknown_token_internalError_witness :
    ServiceInterface._receive [] "x"
      = .error (.internalError "Invalid taskID used.") :=
  receive_unknown_token_internalError [] "x" rfl

/-- Claim C6: receiving a registered token whose task is neither
completed nor errored does not return the empty not-ready marker;
instead it raises `AttributeError`, because the first statement of
`getResult` assigns `_signalCompleted`, a name missing from
`__slots__`, and `_receive` catches only `KeyError`. -/
theorem receive_pending_raises_attributeError :
    ServiceInterface._receive [("t", pendingTask "req")] "t"
      = .error (.attributeError "_signalCompleted") := rfl

/-- Claim C7: receiving a registered token whose task completed with
response "resp" does not return the stored response (on this call or
any repeated call); it raises `AttributeError` at the
`_signalCompleted` assignment of `getResult` before the completed
branch is reached. -/
theorem receive_completed_raises_attributeError :
    ServiceInterface._receive [("u", completedTask "resp")] "u"
      = .error (.attributeError "_signalCompleted")
    ∧ ∀ s, ServiceInterface._receive [("u", completedTask "resp")] "u"
      ≠ .ok s :=
  ⟨rfl, fun _ h => Except.noConfusion h⟩

/-! ### PublisherInterface -/

/-- Outcome of a `rospy.Publisher.publish` call as seen by
`PublisherInterface._send`: success, a raised `ROSInterruptException`,
or a raised `ROSSerializationException`. -/
inductive PublishResult where
  | published
  | rosInterrupt
  | rosSerializationFailure
deriving DecidableEq, Repr

/-- Model of `PublisherInterface._send`: publish the payload; an
interrupt exception is swallowed (`pass`) and control falls through to
`return ''`; a serialization exception is re-raised as `InternalError`;
on success the empty correlation token is returned. -/
def PublisherInterface._send (publish : String → PublishResult)
    (msgData : String) : Except PyError String :=
  match publish msgData with
  | .published => .ok ""
  | .rosInterrupt => .ok ""
  | .rosSerializationFailure =>
      .error (.internalError "Message could not be serialized by ROS.")

/-- Claim C9: for every publish behaviour and payload, an interrupted
publish is swallowed and `_send` returns normally, a failed
serialization is converted into `InternalError`, and every normal
return of `_send` yields the empty correlation token. -/
theorem publisher_send_failure_mapping (publish : String → PublishResult)
    (msgData : String) :
    (publish msgData = .rosInterrupt →
      PublisherInterface._send publish msgData = .ok "")
    ∧ (publish msgData = .rosSerializationFailure →
      PublisherInterface._send publish msgData
        = .error (.internalError "Message could not be serialized by ROS."))
    ∧ (∀ s, PublisherInterface._send publish msgData = .ok s → s = "") := by
  refine ⟨fun h => ?_, fun h => ?_, fun s hs => ?_⟩
  · simp [PublisherInterface._send, h]
  · simp [PublisherInterface._send, h]
  · unfold PublisherInterface._send at hs
    cases hp : publish msgData <;> rw [hp] at hs
    · exact (Except.ok.inj hs).symm
    · exact (Except.ok.inj hs).symm
    · exact Except.noConfusion hs

/-- Witness for C9 at concrete publish behaviours: an interrupted
publish returns the empty token, a failed serialization raises
`InternalError`. -/
theorem publisher_send_failure_mapping_witness :
    PublisherInterface._send (fun _ => PublishResult.rosInterrupt) "m" = .ok ""
    ∧ PublisherInterface._send
        (fun _ => PublishResult.rosSerializationFailure) "m"
      = .error (.internalError "Message could not be serialized by ROS.") :=
  ⟨(publisher_send_failure_mapping (fun _ => PublishResult.rosInterrupt) "m").1
      rfl,
   (publisher_send_failure_mapping
      (fun _ => PublishResult.rosSerializationFailure) "m").2.1 rfl⟩

/-- Witness for C10 at a concrete buffer: a two-byte buffer is shorter
than the length field, so deserialization raises SerializationError. -/
theorem deserialize_error_iff_buffer_short_witness :
    InterfaceBase.deserialize [1, 2]
      = .error (.serializationError "Could not deserialize Interface") :=
  (deserialize_error_iff_buffer_short [1, 2]).mpr (by decide)
